import Mathlib

/-!
Shallow embedding of the HandPong game logic (config.py, src/core/utils.py,
src/core/game_engine.py, src/core/math_system.py, src/entities/ball.py,
src/entities/paddle.py) and proofs about it.

Python floats and wall-clock times are modelled as rationals (ℚ); pixel
integers as ℤ; scores as ℕ. Randomness (random.choice, random.uniform,
random.randint) is modelled by universally quantified input parameters, so
every theorem quantifies over all possible random draws.
-/

namespace HandPong

/-! ## Configuration constants (config.py) -/

def WINDOW_HEIGHT : ℤ := 1080

def GAME_AREA_WIDTH : ℤ := 1200

def GAME_AREA_HEIGHT : ℤ := 900

def GAME_AREA_X : ℤ := 50

/-- Config value GAME_AREA_Y = (WINDOW_HEIGHT - GAME_AREA_HEIGHT) // 2. -/
def GAME_AREA_Y : ℤ := (WINDOW_HEIGHT - GAME_AREA_HEIGHT) / 2

def PADDLE_ANGLE_UP : ℚ := 100

def PADDLE_ANGLE_DOWN : ℚ := 250

def PADDLE_WIDTH : ℤ := 25

def PADDLE_HEIGHT : ℤ := 140

def BALL_RADIUS : ℤ := 12

def WIN_SCORE : ℕ := 5

def BALL_START_SPEED : ℚ := 15

def BALL_MAX_SPEED : ℚ := 25

def HITS_PER_LEVEL : ℕ := 5

def SPEED_INCREMENT_PER_LEVEL : ℚ := 2

def TIME_LIMIT : ℚ := 120

def MATH_TASK_INTERVAL : ℚ := 25

def POWERUP_DURATION : ℚ := 15

/-! ## src/core/utils.py -/

/-- Python float modulo with a positive modulus: x % m = x - m * ⌊x / m⌋,
always in [0, m) for m > 0.  Used to model `angle_deg % 360`. -/
def pymod (x m : ℚ) : ℚ := x - m * ⌊x / m⌋

/-- Embedding of utils.map_angle_to_paddle_y (the dead-zone-aware piecewise
implementation found in src/core/utils.py).  Returns the tuple
(paddle_y, is_in_deadzone) exactly as the Python function does. -/
def map_angle_to_paddle_y (angle_deg game_height paddle_height : ℚ)
    (angle_up angle_down : ℚ) (deadzone_range : ℚ × ℚ) : ℚ × Bool :=
  let deadzone_min := deadzone_range.1
  let deadzone_max := deadzone_range.2
  let a := pymod angle_deg 360
  let max_y := game_height - paddle_height
  let center_y := max_y / 2
  if deadzone_min ≤ a ∧ a ≤ deadzone_max then
    (center_y, true)
  else if angle_up ≤ a ∧ a < 180 then
    let progress := (a - angle_up) / (180 - angle_up)
    ((1 - progress) * 0 + progress * center_y, false)
  else if 180 < a ∧ a ≤ angle_down then
    let progress := (a - 180) / (angle_down - 180)
    (progress * max_y + (1 - progress) * center_y, false)
  else if a < angle_up then
    (0, false)
  else
    (max_y, false)

/-- Embedding of utils.ExponentialMovingAverage state: alpha, value,
initialized. -/
structure EMA where
  alpha : ℚ
  value : ℚ
  initialized : Bool
deriving DecidableEq

/-- ExponentialMovingAverage.__init__(alpha): value 0.0, not initialized. -/
def EMA.init (alpha : ℚ) : EMA :=
  { alpha := alpha, value := 0, initialized := false }

/-- ExponentialMovingAverage.update(new_value): returns the smoothed value
together with the updated filter state. -/
def EMA.update (e : EMA) (new_value : ℚ) : ℚ × EMA :=
  if e.initialized = false then
    (new_value, { e with value := new_value, initialized := true })
  else
    let v := e.alpha * new_value + (1 - e.alpha) * e.value
    (v, { e with value := v })

/-- ExponentialMovingAverage.reset(): value 0.0, not initialized. -/
def EMA.reset (e : EMA) : EMA :=
  { e with value := 0, initialized := false }

/-! ## src/entities/ball.py

The Ball's draw/collision rect (get_draw_rect) is cosmetic/engine-side and
not needed by the claims; everything else is embedded. -/

/-- Embedding of the Ball entity state. -/
structure Ball where
  x : ℚ
  y : ℚ
  vx : ℚ
  vy : ℚ
  is_tiny : Bool
  is_ghost : Bool
  ghost_visible : Bool
  modifier_end_time : ℚ
deriving DecidableEq

/-- Ball.reset(): recenter and re-randomize velocity.  The random draws
random.choice([-1, 1]) and random.uniform(-4, 4) are passed in as
`direction` and `vy_draw`.  Modifier fields are untouched, exactly as in
the source ("Does NOT reset modifiers"). -/
def Ball.reset (b : Ball) (direction : ℤ) (vy_draw : ℚ) : Ball :=
  { b with
    x := (GAME_AREA_X + GAME_AREA_WIDTH / 2 : ℤ)
    y := (GAME_AREA_Y + GAME_AREA_HEIGHT / 2 : ℤ)
    vx := BALL_START_SPEED * direction
    vy := vy_draw }

/-- Ball.__init__(): default fields, then self.reset(). -/
def Ball.init (direction : ℤ) (vy_draw : ℚ) : Ball :=
  Ball.reset
    { x := 0, y := 0, vx := 0, vy := 0, is_tiny := false, is_ghost := false,
      ghost_visible := true, modifier_end_time := 0 }
    direction vy_draw

/-- Ball.set_ghost(duration, current_time): ghost on, tiny off. -/
def Ball.set_ghost (b : Ball) (duration current_time : ℚ) : Ball :=
  { b with is_ghost := true, is_tiny := false,
           modifier_end_time := current_time + duration }

/-- Ball.set_tiny(duration, current_time): tiny on, ghost off. -/
def Ball.set_tiny (b : Ball) (duration current_time : ℚ) : Ball :=
  { b with is_tiny := true, is_ghost := false,
           modifier_end_time := current_time + duration }

/-- Ball.update(current_time): expire modifiers, integrate position, bounce
off the horizontal walls, compute the ghost flicker flag.  Python
int(current_time * 6) truncates toward zero; game times are nonnegative so
this is the floor. -/
def Ball.update (b : Ball) (current_time : ℚ) : Ball :=
  let b :=
    if current_time > b.modifier_end_time then
      { b with is_tiny := false, is_ghost := false, ghost_visible := true }
    else b
  let b := { b with x := b.x + b.vx, y := b.y + b.vy }
  let b :=
    if b.y ≤ (GAME_AREA_Y : ℚ) then
      { b with y := (GAME_AREA_Y : ℚ) + 1, vy := -b.vy }
    else if b.y ≥ ((GAME_AREA_Y + GAME_AREA_HEIGHT : ℤ) : ℚ) then
      { b with y := ((GAME_AREA_Y + GAME_AREA_HEIGHT : ℤ) : ℚ) - 1, vy := -b.vy }
    else b
  if b.is_ghost then
    { b with ghost_visible := decide (⌊current_time * 6⌋ % 2 = 0) }
  else
    { b with ghost_visible := true }

/-- Engine operation: GameEngine._reflect_ball and
GameEngine._reset_ball_with_speed overwrite the ball velocity without
touching any other ball field. -/
def Ball.setVelocity (b : Ball) (vx vy : ℚ) : Ball :=
  { b with vx := vx, vy := vy }

/-- GameEngine._reset_ball_with_speed: Ball.reset (with its own random
draws `r_dir`, `r_vy`) followed by the velocity overwrite
vx = base * dir_x, vy = base * dir_y where dir_x is random.choice([-1, 1])
and dir_y is random.uniform(-0.5, 0.5). -/
def reset_ball_with_speed (b : Ball) (base : ℚ) (r_dir : ℤ) (r_vy : ℚ)
    (dir_x : ℤ) (dir_y : ℚ) : Ball :=
  (b.reset r_dir r_vy).setVelocity (base * dir_x) (base * dir_y)

/-- Reachable ball states: the constructor plus every ball-mutating
operation performed by the engine (reset, set_tiny, set_ghost, update,
velocity overwrites), each over arbitrary inputs/random draws. -/
inductive BallReach : Ball → Prop where
  | init (d : ℤ) (v : ℚ) : BallReach (Ball.init d v)
  | reset (b : Ball) (d : ℤ) (v : ℚ) (h : BallReach b) : BallReach (b.reset d v)
  | set_tiny (b : Ball) (dur t : ℚ) (h : BallReach b) : BallReach (b.set_tiny dur t)
  | set_ghost (b : Ball) (dur t : ℚ) (h : BallReach b) : BallReach (b.set_ghost dur t)
  | update (b : Ball) (t : ℚ) (h : BallReach b) : BallReach (b.update t)
  | setVelocity (b : Ball) (vx vy : ℚ) (h : BallReach b) : BallReach (b.setVelocity vx vy)

/-! ## src/entities/paddle.py

The paddle's rect geometry (x, y, centery), color and the cosmetic
trail_history are untouched by the powerup logic and are omitted;
rect.height is the `height` field. -/

/-- Effect / display-name string literals from GameEngine and Paddle. -/
def effEnlarge : String := "enlarge"

def effShrink : String := "shrink"

def effTrampoline : String := "trampoline"

def effAgility : String := "agility"

def effTiny : String := "tiny"

def effGhost : String := "ghost"

def nameEnlarge : String := "ENLARGE"

def nameShrink : String := "SHRINK"

def nameTrampoline : String := "TRAMPOLINE"

def nameAgility : String := "AGILITY"

def nameTinyBall : String := "TINY BALL"

def nameGhostBall : String := "GHOST BALL"

/-- Python truthiness of an optional string (None and "" are falsy). -/
def optTruthy : Option String → Bool
  | none => false
  | some s => !(s == "")

/-- Embedding of the Paddle entity state. -/
structure Paddle where
  height : ℤ
  score : ℕ
  active_powerup_text : Option String
  powerup_end_time : ℚ
  is_trampoline : Bool
  has_agility : Bool
deriving DecidableEq

/-- Paddle.__init__: height PADDLE_HEIGHT, score 0, no powerup. -/
def Paddle.initial : Paddle :=
  { height := PADDLE_HEIGHT, score := 0, active_powerup_text := none,
    powerup_end_time := 0, is_trampoline := false, has_agility := false }

/-- Paddle.clear_powerups(): remove all active powerups immediately. -/
def Paddle.clear_powerups (p : Paddle) : Paddle :=
  { p with active_powerup_text := none, height := PADDLE_HEIGHT,
           is_trampoline := false, has_agility := false }

/-- Paddle.reset(): score 0, clear_powerups (recentering omitted). -/
def Paddle.reset (p : Paddle) : Paddle :=
  ({ p with score := 0 }).clear_powerups

/-- Paddle.update(current_time): expire the active powerup. -/
def Paddle.update (p : Paddle) (current_time : ℚ) : Paddle :=
  if optTruthy p.active_powerup_text ∧ current_time > p.powerup_end_time then
    p.clear_powerups
  else p

/-- Paddle.apply_powerup(ptype, name, duration, current_time).  Python
int(PADDLE_HEIGHT * 1.5) and int(PADDLE_HEIGHT * 0.5) are the floors of
positive values. -/
def Paddle.apply_powerup (p : Paddle) (ptype name : String)
    (duration current_time : ℚ) : Paddle :=
  let p := p.clear_powerups
  let p := { p with active_powerup_text := some name,
                    powerup_end_time := current_time + duration }
  if ptype = effEnlarge then
    { p with height := ⌊(PADDLE_HEIGHT : ℚ) * 1.5⌋ }
  else if ptype = effShrink then
    { p with height := ⌊(PADDLE_HEIGHT : ℚ) * 0.5⌋ }
  else if ptype = effTrampoline then
    { p with is_trampoline := true, height := 120 }
  else if ptype = effAgility then
    { p with has_agility := true }
  else p

/-- Engine operation from GameEngine._apply_effect (tiny/ghost branches):
winner_obj.active_powerup_text = name; winner_obj.powerup_end_time = end. -/
def Paddle.setPowerupDisplay (p : Paddle) (name : String) (end_time : ℚ) : Paddle :=
  { p with active_powerup_text := some name, powerup_end_time := end_time }

/-- Engine operation from GameEngine._check_score: score += 1. -/
def Paddle.addScore (p : Paddle) : Paddle :=
  { p with score := p.score + 1 }

/-- Reachable paddle states under engine operations.  The display names the
engine passes to apply_powerup / setPowerupDisplay are the fixed nonempty
roster strings, captured by the hypothesis `name ≠ ""`. -/
inductive PaddleReach : Paddle → Prop where
  | init : PaddleReach Paddle.initial
  | reset (p : Paddle) (h : PaddleReach p) : PaddleReach p.reset
  | clear (p : Paddle) (h : PaddleReach p) : PaddleReach p.clear_powerups
  | update (p : Paddle) (t : ℚ) (h : PaddleReach p) : PaddleReach (p.update t)
  | apply_powerup (p : Paddle) (ptype name : String) (dur t : ℚ)
      (hname : name ≠ "") (h : PaddleReach p) :
      PaddleReach (p.apply_powerup ptype name dur t)
  | setDisplay (p : Paddle) (name : String) (e : ℚ) (hname : name ≠ "")
      (h : PaddleReach p) : PaddleReach (p.setPowerupDisplay name e)
  | addScore (p : Paddle) (h : PaddleReach p) : PaddleReach p.addScore

/-! ## src/core/math_system.py

The random candidate equations produced by MathSystem._generate_equation
(random.choice / random.randint draws) are modelled by a universally
quantified candidate stream `cands : ℕ → String × ℤ` giving the
(display string, result) of each sampled attempt, so the theorems hold for
every possible sequence of random draws. -/

/-- Embedding of the MathSystem state.  Python set used_equations is a list
of its (distinct) elements.  `history` is a ghost field recording the
equation string of every successfully generated task this session (newest
first); no source field corresponds to it and nothing reads it. -/
structure MathState where
  active : Bool
  task_start_time : ℚ
  task_duration : ℚ
  equation_string : String
  correct_answer : ℤ
  used_equations : List String
  history : List String
deriving DecidableEq

/-- MathSystem.__init__. -/
def MathState.initial : MathState :=
  { active := false, task_start_time := 0, task_duration := 10,
    equation_string := "", correct_answer := 0, used_equations := [],
    history := [] }

/-- MathSystem.reset(): clear the task and the session uniqueness set (a
new session also starts a fresh ghost history). -/
def MathState.reset (s : MathState) : MathState :=
  { s with active := false, task_start_time := 0, equation_string := "",
           correct_answer := 0, used_equations := [], history := [] }

/-- Rejection-sampling loop body of MathSystem.generate_task over the list
of sampled candidates: accept the first candidate whose display string is
unused and whose result lies in [0, 5]. -/
def MathState.generate_task_from : List (String × ℤ) → ℚ → MathState → Bool × MathState
  | [], _, s => (false, s)
  | (e, r) :: rest, t, s =>
    if e ∉ s.used_equations ∧ 0 ≤ r ∧ r ≤ 5 then
      (true,
        { s with equation_string := e, correct_answer := r,
                 used_equations := e :: s.used_equations, active := true,
                 task_start_time := t, history := e :: s.history })
    else
      MathState.generate_task_from rest t s

/-- MathSystem.generate_task(current_time): max_attempts = 100 candidate
draws from the stream, rejection sampling as in the source. -/
def MathState.generate_task (s : MathState) (cands : ℕ → String × ℤ)
    (t : ℚ) : Bool × MathState :=
  MathState.generate_task_from ((List.range 100).map cands) t s

/-- MathSystem.check_answer(player_answer). -/
def MathState.check_answer (s : MathState) (player_answer : ℤ) : Bool :=
  if s.active = false then false else decide (player_answer = s.correct_answer)

/-- Engine operation: GameEngine._resolve_math and the PvP timeout branch
of _manage_math_tasks write math_sys.active = False. -/
def MathState.deactivate (s : MathState) : MathState :=
  { s with active := false }

/-- MathSystem.get_time_left(current_time). -/
def MathState.get_time_left (s : MathState) (t : ℚ) : ℚ :=
  if s.active = false then 0 else s.task_duration - (t - s.task_start_time)

/-- Reachable MathSystem states within a session and across resets:
construction, reset, generate_task over any candidate stream, and the
engine deactivation writes. -/
inductive MathReach : MathState → Prop where
  | init : MathReach MathState.initial
  | reset (s : MathState) (h : MathReach s) : MathReach s.reset
  | generate (s : MathState) (cands : ℕ → String × ℤ) (t : ℚ)
      (h : MathReach s) : MathReach (s.generate_task cands t).2
  | deactivate (s : MathState) (h : MathReach s) : MathReach s.deactivate

/-- Inactive branch of GameEngine._manage_math_tasks: generate on interval;
last_math_time advances only when generation succeeds.  Returns the new
(last_math_time, math state). -/
def manage_math_tasks_inactive (cands : ℕ → String × ℤ)
    (curr_time last_math_time : ℚ) (s : MathState) : ℚ × MathState :=
  if curr_time - last_math_time > MATH_TASK_INTERVAL then
    let r := s.generate_task cands curr_time
    if r.1 then (curr_time, r.2) else (last_math_time, r.2)
  else (last_math_time, s)

/-! ## GameEngine.update paddle control (src/core/game_engine.py lines 93-99)

GameEngine.update binds target_y_rel to the value of map_angle_to_paddle_y
— which is a (paddle_y, is_in_deadzone) tuple — and then evaluates the
Python expression GAME_AREA_Y + target_y_rel as the argument of
self.player.move.  To model the dynamically-typed addition we use a small
universe of Python values. -/

/-- Minimal universe of Python runtime values for the expression
GAME_AREA_Y + target_y_rel. -/
inductive PyVal where
  | num (q : ℚ)
  | boolean (b : Bool)
  | pair (a b : PyVal)
deriving DecidableEq

/-- Python addition with a numeric left operand: number + number adds;
number + tuple (or any non-number) raises TypeError, modelled as none.
(Tuple and string concatenation never occur with a numeric left operand.) -/
def pyAdd : PyVal → PyVal → Option PyVal
  | .num a, .num b => some (.num (a + b))
  | _, _ => none

/-- Paddle-control step of GameEngine.update: the call
map_angle_to_paddle_y(hand_data['angle'], GAME_AREA_HEIGHT,
self.player.rect.height, PADDLE_ANGLE_UP, PADDLE_ANGLE_DOWN) — the
deadzone_range keeps its default (175, 185) — followed by the evaluation
of GAME_AREA_Y + target_y_rel.  Returns the value that would be passed to
self.player.move, or none when the addition raises TypeError. -/
def update_paddle_control (angle paddle_height : ℚ) : Option PyVal :=
  let target_y_rel :=
    map_angle_to_paddle_y angle (GAME_AREA_HEIGHT : ℚ) paddle_height
      PADDLE_ANGLE_UP PADDLE_ANGLE_DOWN (175, 185)
  pyAdd (.num ((GAME_AREA_Y : ℤ) : ℚ))
    (.pair (.num target_y_rel.1) (.boolean target_y_rel.2))

/-! ## Speed progression of GameEngine._reflect_ball -/

/-- Hit-leveling part of GameEngine._reflect_ball: total_hits += 1, and on
every HITS_PER_LEVEL-th hit ball_current_base_speed goes up by
SPEED_INCREMENT_PER_LEVEL capped at BALL_MAX_SPEED.  Returns the new
(total_hits, ball_current_base_speed). -/
def reflect_speed_step (total_hits : ℕ) (base : ℚ) : ℕ × ℚ :=
  let th := total_hits + 1
  if th % HITS_PER_LEVEL = 0 then
    (th, min (base + SPEED_INCREMENT_PER_LEVEL) BALL_MAX_SPEED)
  else (th, base)

/-- Outgoing speed of _reflect_ball: the session base speed, multiplied by
1.7 and independently re-capped at BALL_MAX_SPEED when the hitting paddle
is a trampoline.  (The bounce-angle trigonometry only distributes this
magnitude between vx and vy: cos² + sin² = 1.) -/
def reflect_outgoing_speed (base : ℚ) (is_trampoline : Bool) : ℚ :=
  if is_trampoline then min (base * 1.7) BALL_MAX_SPEED else base

/-- Hit counter and session base speed after n consecutive paddle hits in a
session started by start_game (total_hits 0, speed BALL_START_SPEED). -/
def hitsState : ℕ → ℕ × ℚ
  | 0 => (0, BALL_START_SPEED)
  | n + 1 => reflect_speed_step (hitsState n).1 (hitsState n).2

/-! ## GameEngine._resolve_math / _apply_effect powerup application -/

/-- Identifies one of the two paddles owned by the engine. -/
inductive Side where
  | player
  | ai
deriving DecidableEq

/-- Entity state acted on by _resolve_math / _apply_effect: the two
paddles and the ball. -/
structure GameEnts where
  player : Paddle
  ai : Paddle
  ball : Ball
deriving DecidableEq

/-- Paddle lookup by side. -/
def GameEnts.getPad : GameEnts → Side → Paddle
  | g, .player => g.player
  | g, .ai => g.ai

/-- Paddle replacement by side. -/
def GameEnts.setPad : GameEnts → Side → Paddle → GameEnts
  | g, .player, p => { g with player := p }
  | g, .ai, p => { g with ai := p }

/-- GameEngine._apply_effect(eff, name, entity, t, winner_obj).  Sides
stand for the aliased Paddle objects.  For a paddle effect the source
calls entity.apply_powerup (entity is never None there: the rosters pair
paddle effects with paddles; the embedding leaves the state unchanged in
that unreachable pairing, where Python would raise AttributeError). -/
def apply_effect (g : GameEnts) (eff name : String) (entity : Option Side)
    (t : ℚ) (winner_obj : Option Side) : GameEnts :=
  if eff = effTiny then
    let g := { g with ball := g.ball.set_tiny POWERUP_DURATION t }
    match winner_obj with
    | some w =>
        g.setPad w ((g.getPad w).setPowerupDisplay name (t + POWERUP_DURATION))
    | none => g
  else if eff = effGhost then
    let g := { g with ball := g.ball.set_ghost POWERUP_DURATION t }
    match winner_obj with
    | some w =>
        g.setPad w ((g.getPad w).setPowerupDisplay name (t + POWERUP_DURATION))
    | none => g
  else
    match entity with
    | some s => g.setPad s ((g.getPad s).apply_powerup eff name POWERUP_DURATION t)
    | none => g

/-- Fixed six-entry powerup roster of GameEngine._resolve_math for a given
winning side (the shrink goes to the other paddle, tiny/ghost target the
ball).  The index is the position random.choice selects. -/
def roster (winner loser : Side) : Fin 6 → String × String × Option Side
  | ⟨0, _⟩ => (effEnlarge, nameEnlarge, some winner)
  | ⟨1, _⟩ => (effTrampoline, nameTrampoline, some winner)
  | ⟨2, _⟩ => (effAgility, nameAgility, some winner)
  | ⟨3, _⟩ => (effShrink, nameShrink, some loser)
  | ⟨4, _⟩ => (effTiny, nameTinyBall, none)
  | ⟨5, _⟩ => (effGhost, nameGhostBall, none)

/-- Powerup-application part of GameEngine._resolve_math: winner "player"
uses winner side player; winners "opponent" and "bot" use winner side ai.
The math_sys.active = False write and the cosmetic fireworks are outside
this entity state (see MathState.deactivate). -/
def resolve_math_effect (g : GameEnts) (winner : Side) (idx : Fin 6)
    (t : ℚ) : GameEnts :=
  let loser : Side := match winner with | .player => .ai | .ai => .player
  let c := roster winner loser idx
  apply_effect g c.1 c.2.1 c.2.2 t (some winner)

/-! ## GameEngine round lifecycle (state machine of update)

Engine2 projects the GameEngine fields governing round termination.  The
per-tick step relation engine_tick_real composes the embeddings of
_update_time_and_check_win, the pause check, the paddle-control
expression (update_paddle_control, whose TypeError propagates out of
update as none: the process dies, so a raising tick has no successor
state), and — on the dead branch where paddle control would return a
value — _check_score, in the order GameEngine.update runs them.  Steps
that never write these fields and never raise (opponent AI, entity
updates, collisions, _manage_math_tasks, particles) are omitted; the
ball's post-physics x coordinate — the only physics output _check_score
reads — enters as the oracle input ball_x, and _reset_ball_with_speed's
effect is on the ball only. -/

/-- GameEngine.state string values. -/
inductive GState where
  | menu
  | difficulty_select
  | confirm_exit
  | playing
  | paused
  | game_over
deriving DecidableEq

def winsP1 : String := "PLAYER 1 WINS"

def winsP2 : String := "PLAYER 2 WINS"

def strSuddenDeath : String := "SUDDEN DEATH"

def nameP1 : String := "PLAYER 1"

def nameP2 : String := "PLAYER 2"

/-- Round-termination fields of GameEngine: state, the two scores,
sudden_death, start_time, time_limit, winner_text, game_time_str. -/
structure Engine2 where
  state : GState
  playerScore : ℕ
  aiScore : ℕ
  sudden_death : Bool
  start_time : ℚ
  time_limit : ℚ
  winner_text : String
  game_time_str : String
deriving DecidableEq

/-- Python f"{n:02}" for the minute/second counts. -/
def pad2 (n : ℤ) : String :=
  if 0 ≤ n ∧ n < 10 then "0" ++ toString n else toString n

/-- GameEngine.__init__ projection. -/
def engine_init : Engine2 :=
  { state := .menu, playerScore := 0, aiScore := 0, sudden_death := false,
    start_time := 0, time_limit := TIME_LIMIT, winner_text := "",
    game_time_str := pad2 0 ++ ":" ++ pad2 0 }

/-- GameEngine.start_game(mode, difficulty) projection: scores reset via
Paddle.reset, sudden_death cleared, clock restarted, state playing.
winner_text and time_limit are not reassigned by start_game. -/
def start_game (t0 : ℚ) (s : Engine2) : Engine2 :=
  { s with state := .playing, playerScore := 0, aiScore := 0,
           sudden_death := false, start_time := t0 }

/-- GameEngine._end_sudden_death(winner_name). -/
def end_sudden_death (winner_name : String) (s : Engine2) : Engine2 :=
  { s with state := .game_over, winner_text := winner_name ++ " WINS" }

/-- GameEngine._update_time_and_check_win(curr_time).  Python
int(elapsed // 60) equals ⌊elapsed / 60⌋ and int(elapsed % 60) equals
⌊elapsed mod 60⌋ (the float modulo is nonnegative, so the int() truncation
is the floor). -/
def update_time_and_check_win (curr_time : ℚ) (s : Engine2) : Engine2 :=
  let elapsed := curr_time - s.start_time
  let tstr := pad2 (⌊elapsed / 60⌋) ++ ":" ++ pad2 (⌊pymod elapsed 60⌋)
  let s := { s with game_time_str := tstr }
  if elapsed ≥ s.time_limit then
    if s.playerScore ≠ s.aiScore then
      { s with state := .game_over,
               winner_text := if s.playerScore > s.aiScore then winsP1 else winsP2 }
    else
      { s with sudden_death := true, game_time_str := strSuddenDeath }
  else s

/-- GameEngine._check_score, reading the ball's post-update x coordinate.
The ball respawn _reset_ball_with_speed mutates only the ball (see
reset_ball_with_speed). -/
def check_score (ball_x : ℚ) (s : Engine2) : Engine2 :=
  let s1 :=
    if ball_x < ((GAME_AREA_X : ℤ) : ℚ) - 20 then
      let s2 := { s with aiScore := s.aiScore + 1 }
      if s2.sudden_death then end_sudden_death nameP2 s2 else s2
    else if ball_x > ((GAME_AREA_X + GAME_AREA_WIDTH : ℤ) : ℚ) + 20 then
      let s2 := { s with playerScore := s.playerScore + 1 }
      if s2.sudden_death then end_sudden_death nameP1 s2 else s2
    else s
  if WIN_SCORE ≤ s1.playerScore ∨ WIN_SCORE ≤ s1.aiScore then
    { s1 with state := .game_over,
              winner_text := if s1.playerScore > s1.aiScore then winsP1 else winsP2 }
  else s1

/-- One tick of GameEngine.update on the round-termination fields: early
return unless playing; _update_time_and_check_win; early return if it
left the playing state; pause hold completed (pause_progress ≥ 1.0)
moves to paused and returns; otherwise the tick evaluates the
paddle-control expression GAME_AREA_Y + map_angle_to_paddle_y(...)
(update_paddle_control, with the smoothed angle and live paddle height as
oracle inputs).  When that raises TypeError the exception propagates out
of update and kills the process (none, no successor state); were it to
return a value, the tick would continue through physics to _check_score
with the ball's post-physics x coordinate. -/
def engine_tick_real (curr_time pause_progress ball_x angle paddle_height : ℚ)
    (s : Engine2) : Option Engine2 :=
  if s.state ≠ GState.playing then some s
  else
    let s1 := update_time_and_check_win curr_time s
    if s1.state ≠ GState.playing then some s1
    else if pause_progress ≥ 1 then some { s1 with state := .paused }
    else
      match update_paddle_control angle paddle_height with
      | none => none
      | some _ => some (check_score ball_x s1)

/-- Engine states reachable under the faithful per-tick step relation:
the constructed engine, session starts, and surviving ticks over
arbitrary times, pause inputs, ball positions, angles and paddle heights
(a raising tick terminates the process and yields no successor). -/
inductive EngineReachReal : Engine2 → Prop where
  | init : EngineReachReal engine_init
  | start (s : Engine2) (t0 : ℚ) (h : EngineReachReal s) :
      EngineReachReal (start_game t0 s)
  | tick (s s2 : Engine2) (t pause ball_x angle ph : ℚ) (h : EngineReachReal s)
      (hstep : engine_tick_real t pause ball_x angle ph s = some s2) :
      EngineReachReal s2

/-- Example entity state for concrete instantiations: two fresh paddles
and a fresh ball. -/
def g0ex : GameEnts :=
  { player := Paddle.initial, ai := Paddle.initial, ball := Ball.init 1 0 }

/-! ## Theorems -/

/-- C9: for every smoothing factor and every raw input, the first
ExponentialMovingAverage.update output after construction or after reset
equals the raw input exactly (cold-start passthrough); once initialized,
update returns alpha * new_value + (1 - alpha) * previous value, which for
alpha in [0, 1] is a convex combination lying between the previous
smoothed value and the new input. -/
theorem ema_cold_start_and_convex :
    ∀ alpha new_value : ℚ,
      ((EMA.init alpha).update new_value).1 = new_value ∧
      (∀ e : EMA, (e.reset.update new_value).1 = new_value) ∧
      (∀ e : EMA, e.initialized = true →
        (e.update new_value).1 = e.alpha * new_value + (1 - e.alpha) * e.value ∧
        (0 ≤ e.alpha → e.alpha ≤ 1 →
          min e.value new_value ≤ (e.update new_value).1 ∧
          (e.update new_value).1 ≤ max e.value new_value)) := by
  intro alpha nv
  refine ⟨rfl, fun e => rfl, fun e he => ?_⟩
  have hup : (e.update nv).1 = e.alpha * nv + (1 - e.alpha) * e.value := by
    simp [EMA.update, he]
  refine ⟨hup, fun h0 h1 => ?_⟩
  rw [hup]
  constructor
  · rcases le_total e.value nv with hle | hle
    · have hn : 0 ≤ e.alpha * (nv - e.value) := mul_nonneg h0 (by linarith)
      rw [min_eq_left hle]
      nlinarith
    · have hn : 0 ≤ (1 - e.alpha) * (e.value - nv) :=
        mul_nonneg (by linarith) (by linarith)
      rw [min_eq_right hle]
      nlinarith
  · rcases le_total e.value nv with hle | hle
    · have hn : 0 ≤ (1 - e.alpha) * (nv - e.value) :=
        mul_nonneg (by linarith) (by linarith)
      rw [max_eq_right hle]
      nlinarith
    · have hn : 0 ≤ e.alpha * (e.value - nv) := mul_nonneg h0 (by linarith)
      rw [max_eq_left hle]
      nlinarith

/-- C9 witness: concrete instantiation of the initialized-update clause at
alpha = 1/2, previous value 4, new input 8, and of the cold-start clause at
input 7. -/
theorem ema_cold_start_and_convex_witness :
    ((EMA.init (1/2)).update 7).1 = 7 ∧
    (({ alpha := 1/2, value := 4, initialized := true } : EMA).update 8).1 =
      (1/2 : ℚ) * 8 + (1 - 1/2) * 4 ∧
    min (4 : ℚ) 8 ≤
      (({ alpha := 1/2, value := 4, initialized := true } : EMA).update 8).1 := by
  have h1 := (ema_cold_start_and_convex (1/2) 7).1
  have h2 := (ema_cold_start_and_convex (1/2) 8).2.2
    { alpha := 1/2, value := 4, initialized := true } rfl
  exact ⟨h1, h2.1, (h2.2 (by norm_num) (by norm_num)).1⟩

/-- C10: Ball.reset repositions the ball to the playfield center
(650, 540) and re-randomizes its velocity, leaving is_tiny, is_ghost,
ghost_visible and modifier_end_time unchanged; the engine respawn
_reset_ball_with_speed does the same with velocity base * dir_x,
base * dir_y, so an active tiny/ghost modifier persists across scoring
respawns until its timer expires. -/
theorem ball_reset_preserves_modifiers :
    ∀ (b : Ball) (d rd dir_x : ℤ) (v rv dir_y base : ℚ),
      ((b.reset d v).x = 650 ∧ (b.reset d v).y = 540 ∧
       (b.reset d v).is_tiny = b.is_tiny ∧
       (b.reset d v).is_ghost = b.is_ghost ∧
       (b.reset d v).ghost_visible = b.ghost_visible ∧
       (b.reset d v).modifier_end_time = b.modifier_end_time) ∧
      ((reset_ball_with_speed b base rd rv dir_x dir_y).x = 650 ∧
       (reset_ball_with_speed b base rd rv dir_x dir_y).y = 540 ∧
       (reset_ball_with_speed b base rd rv dir_x dir_y).vx = base * dir_x ∧
       (reset_ball_with_speed b base rd rv dir_x dir_y).vy = base * dir_y ∧
       (reset_ball_with_speed b base rd rv dir_x dir_y).is_tiny = b.is_tiny ∧
       (reset_ball_with_speed b base rd rv dir_x dir_y).is_ghost = b.is_ghost ∧
       (reset_ball_with_speed b base rd rv dir_x dir_y).ghost_visible = b.ghost_visible ∧
       (reset_ball_with_speed b base rd rv dir_x dir_y).modifier_end_time =
         b.modifier_end_time) := by
  intro b d rd dir_x v rv dir_y base
  refine ⟨⟨?_, ?_, rfl, rfl, rfl, rfl⟩, ⟨?_, ?_, rfl, rfl, rfl, rfl, rfl, rfl⟩⟩ <;>
    norm_num [Ball.reset, reset_ball_with_speed, Ball.setVelocity,
      GAME_AREA_X, GAME_AREA_WIDTH, GAME_AREA_Y, GAME_AREA_HEIGHT, WINDOW_HEIGHT]

/-- Projection of Ball.update onto is_tiny: cleared on expiry, otherwise
preserved. -/
theorem ball_update_is_tiny (b : Ball) (t : ℚ) :
    (b.update t).is_tiny = if t > b.modifier_end_time then false else b.is_tiny := by
  unfold Ball.update
  split_ifs with h1 <;>
    simp [apply_ite Ball.is_tiny, apply_ite Ball.is_ghost]

/-- Projection of Ball.update onto is_ghost: cleared on expiry, otherwise
preserved. -/
theorem ball_update_is_ghost (b : Ball) (t : ℚ) :
    (b.update t).is_ghost = if t > b.modifier_end_time then false else b.is_ghost := by
  unfold Ball.update
  split_ifs with h1 <;>
    simp [apply_ite Ball.is_tiny, apply_ite Ball.is_ghost]

/-- Reachability invariant for C7: tiny and ghost are never both set. -/
theorem ballReach_not_both (b : Ball) (h : BallReach b) :
    ¬(b.is_tiny = true ∧ b.is_ghost = true) := by
  induction h with
  | init d v => simp [Ball.init, Ball.reset]
  | reset b d v h ih => simpa [Ball.reset] using ih
  | set_tiny b dur t h ih => simp [Ball.set_tiny]
  | set_ghost b dur t h ih => simp [Ball.set_ghost]
  | setVelocity b vx vy h ih => simpa [Ball.setVelocity] using ih
  | update b t h ih =>
      rw [ball_update_is_tiny, ball_update_is_ghost]
      split_ifs <;> simp_all

/-- C7: for every ball state reachable under the engine ball operations,
is_tiny and is_ghost are never simultaneously true; set_tiny/set_ghost
each clear the other modifier (last-applied-wins), and an update at a time
past modifier_end_time clears both. -/
theorem ball_modifiers_mutually_exclusive :
    ∀ b : Ball, BallReach b →
      (¬(b.is_tiny = true ∧ b.is_ghost = true)) ∧
      (∀ dur t : ℚ,
        (b.set_tiny dur t).is_tiny = true ∧ (b.set_tiny dur t).is_ghost = false ∧
        (b.set_ghost dur t).is_ghost = true ∧ (b.set_ghost dur t).is_tiny = false) ∧
      (∀ t : ℚ, t > b.modifier_end_time →
        (b.update t).is_tiny = false ∧ (b.update t).is_ghost = false) := by
  intro b hb
  refine ⟨ballReach_not_both b hb, fun dur t => ⟨rfl, rfl, rfl, rfl⟩, fun t ht => ?_⟩
  rw [ball_update_is_tiny, ball_update_is_ghost, if_pos ht, if_pos ht]
  exact ⟨rfl, rfl⟩

/-- C7 witness: the invariant and the per-operation clauses instantiated
on the freshly constructed ball, with update time 1 past its
modifier_end_time 0. -/
theorem ball_modifiers_mutually_exclusive_witness :
    (¬((Ball.init 1 0).is_tiny = true ∧ (Ball.init 1 0).is_ghost = true)) ∧
    ((Ball.init 1 0).set_tiny 15 0).is_ghost = false ∧
    ((Ball.init 1 0).set_ghost 15 0).is_tiny = false ∧
    ((Ball.init 1 0).update 1).is_tiny = false ∧
    ((Ball.init 1 0).update 1).is_ghost = false := by
  have h := ball_modifiers_mutually_exclusive (Ball.init 1 0) (BallReach.init 1 0)
  have hupd := h.2.2 1 (by simp [Ball.init, Ball.reset])
  exact ⟨h.1, (h.2.1 15 0).2.1, (h.2.1 15 0).2.2.2, hupd.1, hupd.2⟩

/-- C1 (recording the defect): every evaluation of the paddle-control step
of GameEngine.update fails with TypeError, for every smoothed hand angle
and every live paddle height: map_angle_to_paddle_y returns the tuple
(paddle_y, is_in_deadzone) and the engine evaluates
GAME_AREA_Y + target_y_rel, adding an int to that tuple, so the claimed
clamped-linear mapping is never applied to the player paddle. -/
theorem update_paddle_control_raises :
    ∀ angle paddle_height : ℚ, update_paddle_control angle paddle_height = none :=
  fun _ _ => rfl

/-- Hit counter bookkeeping: after n hits total_hits equals n. -/
theorem hitsState_fst (n : ℕ) : (hitsState n).1 = n := by
  induction n with
  | zero => rfl
  | succ n ih => simp [hitsState, reflect_speed_step] ; split_ifs <;> simp [ih]

/-- Session base speed at hit 25 equals the cap. -/
theorem hitsState_cap25 : (hitsState 25).2 = BALL_MAX_SPEED := by
  norm_num [hitsState, reflect_speed_step, HITS_PER_LEVEL,
    SPEED_INCREMENT_PER_LEVEL, BALL_MAX_SPEED, BALL_START_SPEED, min_def]

/-- C4: the leveling step of _reflect_ball raises the session base speed by
SPEED_INCREMENT_PER_LEVEL exactly on every HITS_PER_LEVEL-th total hit,
capped at BALL_MAX_SPEED; a trampoline paddle scales the outgoing speed by
1.7 with its own cap at BALL_MAX_SPEED; under the default constants the
base speed after consecutive hits is capped at 25 throughout, increments
occur at hit counts 5 (15 to 17) and 10 (to 19), and the cap is reached at
hit 25 (before 40) and retained thereafter. -/
theorem ball_speed_leveling :
    (∀ (h : ℕ) (base : ℚ),
      ((h + 1) % HITS_PER_LEVEL = 0 →
        reflect_speed_step h base =
          (h + 1, min (base + SPEED_INCREMENT_PER_LEVEL) BALL_MAX_SPEED)) ∧
      ((h + 1) % HITS_PER_LEVEL ≠ 0 → reflect_speed_step h base = (h + 1, base))) ∧
    (∀ base : ℚ,
      reflect_outgoing_speed base true = min (base * 1.7) BALL_MAX_SPEED ∧
      reflect_outgoing_speed base true ≤ BALL_MAX_SPEED) ∧
    (∀ base : ℚ, base ≤ BALL_MAX_SPEED →
      reflect_outgoing_speed base false ≤ BALL_MAX_SPEED) ∧
    (∀ n : ℕ, (hitsState n).2 ≤ BALL_MAX_SPEED) ∧
    (hitsState 4).2 = BALL_START_SPEED ∧
    (hitsState 5).2 = BALL_START_SPEED + SPEED_INCREMENT_PER_LEVEL ∧
    (hitsState 10).2 = BALL_START_SPEED + 2 * SPEED_INCREMENT_PER_LEVEL ∧
    (hitsState 25).2 = BALL_MAX_SPEED ∧
    (∀ m : ℕ, 25 ≤ m → (hitsState m).2 = BALL_MAX_SPEED) := by
  refine ⟨?_, ?_, ?_, ?_, ?_, ?_, ?_, hitsState_cap25, ?_⟩
  · intro h base
    constructor <;> intro hc <;> simp [reflect_speed_step, hc]
  · intro base
    exact ⟨rfl, min_le_right _ _⟩
  · intro base hb
    simpa [reflect_outgoing_speed] using hb
  · intro n
    induction n with
    | zero => norm_num [hitsState, BALL_START_SPEED, BALL_MAX_SPEED]
    | succ n ih =>
        have e : hitsState (n + 1) = reflect_speed_step (hitsState n).1 (hitsState n).2 := rfl
        rw [e]
        simp only [reflect_speed_step]
        split_ifs
        · exact min_le_right _ _
        · exact ih
  · norm_num [hitsState, reflect_speed_step, HITS_PER_LEVEL,
      SPEED_INCREMENT_PER_LEVEL, BALL_MAX_SPEED, BALL_START_SPEED, min_def]
  · norm_num [hitsState, reflect_speed_step, HITS_PER_LEVEL,
      SPEED_INCREMENT_PER_LEVEL, BALL_MAX_SPEED, BALL_START_SPEED, min_def]
  · norm_num [hitsState, reflect_speed_step, HITS_PER_LEVEL,
      SPEED_INCREMENT_PER_LEVEL, BALL_MAX_SPEED, BALL_START_SPEED, min_def]
  · intro m hm
    induction m, hm using Nat.le_induction with
    | base => exact hitsState_cap25
    | succ n hn ih =>
        have e : hitsState (n + 1) = reflect_speed_step (hitsState n).1 (hitsState n).2 := rfl
        rw [e]
        simp only [reflect_speed_step]
        split_ifs
        · rw [ih]
          norm_num [BALL_MAX_SPEED, SPEED_INCREMENT_PER_LEVEL, min_def]
        · exact ih

/-- C4 witness: the leveling step at the 5th hit and a non-leveling hit, a
non-trampoline outgoing speed under the cap, and the retained cap at hit
30. -/
theorem ball_speed_leveling_witness :
    reflect_speed_step 4 15 =
      (5, min ((15 : ℚ) + SPEED_INCREMENT_PER_LEVEL) BALL_MAX_SPEED) ∧
    reflect_speed_step 0 15 = (1, (15 : ℚ)) ∧
    reflect_outgoing_speed 15 false ≤ BALL_MAX_SPEED ∧
    (hitsState 30).2 = BALL_MAX_SPEED := by
  refine ⟨(ball_speed_leveling.1 4 15).1 (by decide),
          (ball_speed_leveling.1 0 15).2 (by decide),
          ball_speed_leveling.2.2.1 15 (by norm_num [BALL_MAX_SPEED]),
          ball_speed_leveling.2.2.2.2.2.2.2.2 30 (by norm_num)⟩

/-- Reachability invariant for C3: the paddle height is one of 70, 120,
140, 210 pixels, and with no truthy powerup text the height is the base
PADDLE_HEIGHT. -/
theorem paddleReach_inv (p : Paddle) (h : PaddleReach p) :
    (p.height = 70 ∨ p.height = 120 ∨ p.height = 140 ∨ p.height = 210) ∧
    (optTruthy p.active_powerup_text = false → p.height = PADDLE_HEIGHT) := by
  induction h with
  | init => norm_num [Paddle.initial, optTruthy, PADDLE_HEIGHT]
  | reset p h ih => norm_num [Paddle.reset, Paddle.clear_powerups, optTruthy, PADDLE_HEIGHT]
  | clear p h ih => norm_num [Paddle.clear_powerups, optTruthy, PADDLE_HEIGHT]
  | update p t h ih =>
      unfold Paddle.update
      split_ifs with hc
      · norm_num [Paddle.clear_powerups, optTruthy, PADDLE_HEIGHT]
      · exact ih
  | apply_powerup p ptype name dur t hname h ih =>
      have htx : optTruthy (some name) = true := by
        simp [optTruthy, hname]
      have h210 : (⌊(140 : ℚ) * 1.5⌋ : ℤ) = 210 := by
        have e : (140 : ℚ) * 1.5 = ((210 : ℤ) : ℚ) := by norm_num
        rw [e, Int.floor_intCast]
      have h70 : (⌊(140 : ℚ) * 0.5⌋ : ℤ) = 70 := by
        have e : (140 : ℚ) * 0.5 = ((70 : ℤ) : ℚ) := by norm_num
        rw [e, Int.floor_intCast]
      unfold Paddle.apply_powerup
      split_ifs <;> simp [Paddle.clear_powerups, htx, h210, h70, PADDLE_HEIGHT]
  | setDisplay p name e hname h ih =>
      have htx : optTruthy (some name) = true := by
        simp [optTruthy, hname]
      exact ⟨ih.1, by simp [Paddle.setPowerupDisplay, htx]⟩
  | addScore p h ih => simpa [Paddle.addScore] using ih

/-- C3 (amended): for every reachable paddle state the height is one of
70 px (50 percent shrink), 140 px (base), 210 px (150 percent enlarge) or
the fixed 120 px trampoline height, and the height returns to the base
PADDLE_HEIGHT when Paddle.update runs past powerup_end_time or the paddle
is reset. -/
theorem paddle_height_powerup_invariant :
    ∀ p : Paddle, PaddleReach p →
      (p.height = 70 ∨ p.height = 120 ∨ p.height = 140 ∨ p.height = 210) ∧
      (∀ t : ℚ, t > p.powerup_end_time → (p.update t).height = PADDLE_HEIGHT) ∧
      p.reset.height = PADDLE_HEIGHT := by
  intro p hp
  obtain ⟨h1, h2⟩ := paddleReach_inv p hp
  refine ⟨h1, fun t ht => ?_, rfl⟩
  unfold Paddle.update
  split_ifs with hc
  · rfl
  · have hfalse : optTruthy p.active_powerup_text = false := by
      cases hb : optTruthy p.active_powerup_text
      · rfl
      · exact absurd ⟨hb, ht⟩ hc
    exact h2 hfalse

/-- C3 witness: the invariant instantiated on the freshly constructed
paddle, with update time 1 past its powerup_end_time 0. -/
theorem paddle_height_powerup_invariant_witness :
    (Paddle.initial.height = 70 ∨ Paddle.initial.height = 120 ∨
     Paddle.initial.height = 140 ∨ Paddle.initial.height = 210) ∧
    (Paddle.initial.update 1).height = PADDLE_HEIGHT ∧
    Paddle.initial.reset.height = PADDLE_HEIGHT := by
  have h := paddle_height_powerup_invariant Paddle.initial PaddleReach.init
  exact ⟨h.1, h.2.1 1 (by norm_num [Paddle.initial]), h.2.2⟩

/-- C3 counterexample: applying the trampoline powerup to a fresh paddle —
a reachable engine operation — sets the height to 120 px, which is none of
50, 100 or 150 percent of the 140 px base height, so the claimed
three-value height set is wrong. -/
theorem paddle_height_claim_counterexample :
    PaddleReach (Paddle.initial.apply_powerup effTrampoline nameTrampoline POWERUP_DURATION 0) ∧
    (Paddle.initial.apply_powerup effTrampoline nameTrampoline POWERUP_DURATION 0).height = 120 ∧
    ¬((Paddle.initial.apply_powerup effTrampoline nameTrampoline POWERUP_DURATION 0).height = 70 ∨
      (Paddle.initial.apply_powerup effTrampoline nameTrampoline POWERUP_DURATION 0).height = 140 ∨
      (Paddle.initial.apply_powerup effTrampoline nameTrampoline POWERUP_DURATION 0).height = 210) := by
  have h120 : (Paddle.initial.apply_powerup effTrampoline nameTrampoline POWERUP_DURATION 0).height = 120 := by
    simp [Paddle.apply_powerup, Paddle.clear_powerups, effTrampoline, effEnlarge, effShrink]
  refine ⟨PaddleReach.apply_powerup _ _ _ _ _ (by decide) PaddleReach.init, h120, ?_⟩
  rw [h120]
  norm_num

/-- Invariant preservation through the rejection-sampling loop: answer
bounds, distinct generated-equation history, and history contained in the
uniqueness set. -/
theorem generate_task_from_inv (L : List (String × ℤ)) (t : ℚ) (s : MathState)
    (h1 : 0 ≤ s.correct_answer ∧ s.correct_answer ≤ 5)
    (h2 : s.history.Nodup)
    (h3 : ∀ e ∈ s.history, e ∈ s.used_equations) :
    (0 ≤ (MathState.generate_task_from L t s).2.correct_answer ∧
     (MathState.generate_task_from L t s).2.correct_answer ≤ 5) ∧
    (MathState.generate_task_from L t s).2.history.Nodup ∧
    (∀ e ∈ (MathState.generate_task_from L t s).2.history,
      e ∈ (MathState.generate_task_from L t s).2.used_equations) := by
  induction L with
  | nil => exact ⟨h1, h2, h3⟩
  | cons hd rest ih =>
      obtain ⟨e, r⟩ := hd
      simp only [MathState.generate_task_from]
      split_ifs with hc
      · obtain ⟨hnotin, hr0, hr5⟩ := hc
        refine ⟨⟨hr0, hr5⟩, ?_, ?_⟩
        · exact List.nodup_cons.mpr ⟨fun hmem => hnotin (h3 e hmem), h2⟩
        · intro x hx
          rcases List.mem_cons.mp hx with hx | hx
          · exact hx ▸ List.mem_cons_self _ _
          · exact List.mem_cons_of_mem _ (h3 x hx)
      · exact ih

/-- Reachability invariant for C5 over the instrumented MathSystem
state. -/
theorem mathReach_inv (s : MathState) (h : MathReach s) :
    (0 ≤ s.correct_answer ∧ s.correct_answer ≤ 5) ∧
    s.history.Nodup ∧
    (∀ e ∈ s.history, e ∈ s.used_equations) := by
  induction h with
  | init => simp [MathState.initial]
  | reset s h ih => simp [MathState.reset]
  | deactivate s h ih => simpa [MathState.deactivate] using ih
  | generate s cands t h ih =>
      exact generate_task_from_inv _ _ _ ih.1 ih.2.1 ih.2.2

/-- C5: at every reachable MathSystem state the stored correct_answer is
an integer in [0, 5] whenever a task is active, and the equation display
strings of the tasks generated this session are pairwise distinct. -/
theorem math_answer_range_and_no_repeat :
    ∀ s : MathState, MathReach s →
      (s.active = true → 0 ≤ s.correct_answer ∧ s.correct_answer ≤ 5) ∧
      s.history.Nodup :=
  fun s h => ⟨fun _ => (mathReach_inv s h).1, (mathReach_inv s h).2.1⟩

/-- C5 witness: the invariant on the state reached by one successful
generation from a fresh session. -/
theorem math_answer_range_and_no_repeat_witness :
    (0 ≤ (MathState.initial.generate_task (fun _ => ("2 + 2", 4)) 0).2.correct_answer ∧
     (MathState.initial.generate_task (fun _ => ("2 + 2", 4)) 0).2.correct_answer ≤ 5) ∧
    (MathState.initial.generate_task (fun _ => ("2 + 2", 4)) 0).2.history.Nodup := by
  have hr : MathReach (MathState.initial.generate_task (fun _ => ("2 + 2", 4)) 0).2 :=
    MathReach.generate _ _ _ MathReach.init
  have h := math_answer_range_and_no_repeat _ hr
  have hact : (MathState.initial.generate_task (fun _ => ("2 + 2", 4)) 0).2.active = true := by
    decide
  exact ⟨h.1 hact, h.2⟩

/-- Failure of the rejection-sampling loop leaves the state untouched. -/
theorem generate_task_from_fail (L : List (String × ℤ)) (t : ℚ) (s : MathState) :
    (MathState.generate_task_from L t s).1 = false →
    (MathState.generate_task_from L t s).2 = s := by
  induction L with
  | nil => intro _; rfl
  | cons hd rest ih =>
      obtain ⟨e, r⟩ := hd
      simp only [MathState.generate_task_from]
      split_ifs
      · simp
      · exact ih

/-- Success of the rejection-sampling loop: task activated and stamped,
equation stored, marked used and previously unused, answer in range. -/
theorem generate_task_from_success (L : List (String × ℤ)) (t : ℚ) (s : MathState) :
    (MathState.generate_task_from L t s).1 = true →
    ((MathState.generate_task_from L t s).2.active = true ∧
     (MathState.generate_task_from L t s).2.task_start_time = t ∧
     (MathState.generate_task_from L t s).2.used_equations =
       (MathState.generate_task_from L t s).2.equation_string :: s.used_equations ∧
     (MathState.generate_task_from L t s).2.equation_string ∉ s.used_equations ∧
     0 ≤ (MathState.generate_task_from L t s).2.correct_answer ∧
     (MathState.generate_task_from L t s).2.correct_answer ≤ 5) := by
  induction L with
  | nil => simp [MathState.generate_task_from]
  | cons hd rest ih =>
      obtain ⟨e, r⟩ := hd
      simp only [MathState.generate_task_from]
      split_ifs with hc
      · obtain ⟨hnotin, h0, h5⟩ := hc
        exact fun _ => ⟨rfl, rfl, rfl, hnotin, h0, h5⟩
      · exact ih

/-- The generator samples only the first 100 candidates of the stream. -/
theorem generate_task_only_first_100 (s : MathState)
    (cands cands2 : ℕ → String × ℤ) (t : ℚ)
    (h : ∀ i, i < 100 → cands i = cands2 i) :
    s.generate_task cands t = s.generate_task cands2 t := by
  unfold MathState.generate_task
  have e : (List.range 100).map cands = (List.range 100).map cands2 :=
    List.map_congr_left (fun a ha => h a (List.mem_range.mp ha))
  rw [e]

/-- On generation failure _manage_math_tasks keeps last_math_time, so the
interval check fires again at the next tick. -/
theorem manage_math_tasks_retry (cands : ℕ → String × ℤ) (t lm : ℚ) (s : MathState) :
    (s.generate_task cands t).1 = false →
    (manage_math_tasks_inactive cands t lm s).1 = lm := by
  intro hf
  unfold manage_math_tasks_inactive
  split_ifs with hcond
  · simp [hf]
  · rfl

/-- C6: MathSystem.generate_task samples at most 100 candidates, rejecting
out-of-range or repeated ones; on success it returns True, stores and
marks the equation and activates the task; on failure it returns False
with the state (active, equation_string, correct_answer, used_equations)
exactly unchanged, and the engine keeps last_math_time so the generation
is retried at the next interval check. -/
theorem generate_task_bounded_rejection :
    ∀ (cands : ℕ → String × ℤ) (t : ℚ) (s : MathState),
      ((s.generate_task cands t).1 = false → (s.generate_task cands t).2 = s) ∧
      ((s.generate_task cands t).1 = true →
        ((s.generate_task cands t).2.active = true ∧
         (s.generate_task cands t).2.task_start_time = t ∧
         (s.generate_task cands t).2.used_equations =
           (s.generate_task cands t).2.equation_string :: s.used_equations ∧
         (s.generate_task cands t).2.equation_string ∉ s.used_equations ∧
         0 ≤ (s.generate_task cands t).2.correct_answer ∧
         (s.generate_task cands t).2.correct_answer ≤ 5)) ∧
      (∀ cands2 : ℕ → String × ℤ, (∀ i, i < 100 → cands i = cands2 i) →
        s.generate_task cands t = s.generate_task cands2 t) ∧
      (∀ last_math : ℚ, (s.generate_task cands t).1 = false →
        (manage_math_tasks_inactive cands t last_math s).1 = last_math) :=
  fun cands t s =>
    ⟨generate_task_from_fail _ _ _, generate_task_from_success _ _ _,
     fun c2 h => generate_task_only_first_100 s cands c2 t h,
     fun lm => manage_math_tasks_retry cands t lm s⟩

/-- C6 witness: a stream of out-of-range candidates is fully rejected and
leaves the fresh state unchanged with last_math_time kept; an acceptable
stream activates a stamped task; a stream agreeing on indices below 100
yields the identical result. -/
theorem generate_task_bounded_rejection_witness :
    (MathState.initial.generate_task (fun _ => ("9 - 1", 8)) 0).2 = MathState.initial ∧
    ((MathState.initial.generate_task (fun _ => ("2 + 3", 5)) 0).2.active = true ∧
     (MathState.initial.generate_task (fun _ => ("2 + 3", 5)) 0).2.task_start_time = 0 ∧
     (MathState.initial.generate_task (fun _ => ("2 + 3", 5)) 0).2.used_equations =
       (MathState.initial.generate_task (fun _ => ("2 + 3", 5)) 0).2.equation_string ::
         MathState.initial.used_equations ∧
     (MathState.initial.generate_task (fun _ => ("2 + 3", 5)) 0).2.equation_string ∉
       MathState.initial.used_equations ∧
     0 ≤ (MathState.initial.generate_task (fun _ => ("2 + 3", 5)) 0).2.correct_answer ∧
     (MathState.initial.generate_task (fun _ => ("2 + 3", 5)) 0).2.correct_answer ≤ 5) ∧
    MathState.initial.generate_task (fun _ => ("2 + 3", 5)) 0 =
      MathState.initial.generate_task
        (fun i => if i < 100 then ("2 + 3", 5) else ("x", 0)) 0 ∧
    (manage_math_tasks_inactive (fun _ => ("9 - 1", 8)) 30 3 MathState.initial).1 = 3 := by
  have hfail0 : (MathState.initial.generate_task (fun _ => ("9 - 1", 8)) 0).1 = false := by
    decide
  have hfail30 : (MathState.initial.generate_task (fun _ => ("9 - 1", 8)) 30).1 = false := by
    decide
  have hsucc : (MathState.initial.generate_task (fun _ => ("2 + 3", 5)) 0).1 = true := by
    decide
  refine ⟨(generate_task_bounded_rejection _ 0 MathState.initial).1 hfail0,
          (generate_task_bounded_rejection _ 0 MathState.initial).2.1 hsucc,
          (generate_task_bounded_rejection _ 0 MathState.initial).2.2.1 _
            (fun i hi => by simp [hi]),
          (generate_task_bounded_rejection _ 30 MathState.initial).2.2.2 3 hfail30⟩

/-- C8 (amended): a math resolution drawing a ball-targeted effect (roster
index 4 = tiny, 5 = ghost) applies the modifier to the ball and leaves the
winner paddle's height, is_trampoline, has_agility, score — and the whole
opposing paddle — unchanged, but it does write the winner's powerup
display slot: active_powerup_text becomes the effect name and
powerup_end_time becomes t + POWERUP_DURATION. -/
theorem resolve_math_ball_effect :
    ∀ (g : GameEnts) (w : Side) (t : ℚ) (idx : Fin 6),
      idx = 4 ∨ idx = 5 →
      ((resolve_math_effect g w idx t).ball =
        (if idx = 4 then g.ball.set_tiny POWERUP_DURATION t
         else g.ball.set_ghost POWERUP_DURATION t) ∧
       ((resolve_math_effect g w idx t).getPad w).height = (g.getPad w).height ∧
       ((resolve_math_effect g w idx t).getPad w).is_trampoline =
         (g.getPad w).is_trampoline ∧
       ((resolve_math_effect g w idx t).getPad w).has_agility =
         (g.getPad w).has_agility ∧
       ((resolve_math_effect g w idx t).getPad w).score = (g.getPad w).score ∧
       ((resolve_math_effect g w idx t).getPad w).active_powerup_text =
         some (if idx = 4 then nameTinyBall else nameGhostBall) ∧
       ((resolve_math_effect g w idx t).getPad w).powerup_end_time =
         t + POWERUP_DURATION ∧
       (∀ o : Side, o ≠ w →
         (resolve_math_effect g w idx t).getPad o = g.getPad o)) := by
  intro g w t idx hidx
  rcases hidx with h | h <;> subst h <;> cases w <;>
    refine ⟨?_, ?_, ?_, ?_, ?_, ?_, ?_, fun o ho => ?_⟩ <;>
    first
      | (cases o <;>
          simp_all [resolve_math_effect, roster, apply_effect, GameEnts.getPad,
            GameEnts.setPad, Paddle.setPowerupDisplay, effTiny, effGhost])
      | simp [resolve_math_effect, roster, apply_effect, GameEnts.getPad,
          GameEnts.setPad, Paddle.setPowerupDisplay, effTiny, effGhost,
          nameTinyBall, nameGhostBall]

/-- C8 witness: the amended behaviour at the concrete fresh entity state,
player side, roster index 4 (TINY BALL), time 0. -/
theorem resolve_math_ball_effect_witness :
    (resolve_math_effect g0ex Side.player 4 0).ball =
      (if (4 : Fin 6) = 4 then g0ex.ball.set_tiny POWERUP_DURATION 0
       else g0ex.ball.set_ghost POWERUP_DURATION 0) ∧
    ((resolve_math_effect g0ex Side.player 4 0).getPad Side.player).height =
      (g0ex.getPad Side.player).height ∧
    ((resolve_math_effect g0ex Side.player 4 0).getPad Side.player).active_powerup_text =
      some (if (4 : Fin 6) = 4 then nameTinyBall else nameGhostBall) := by
  have h := resolve_math_ball_effect g0ex Side.player 0 4 (Or.inl rfl)
  exact ⟨h.1, h.2.1, h.2.2.2.2.2.1⟩

/-- C8 counterexample: resolving a player-won math task with roster index
4 (TINY BALL) at time 0 from the fresh entity state changes the winner
paddle's active_powerup_text from none to "TINY BALL" and its
powerup_end_time from 0 to 15, so the winner's paddle powerup slot is not
bypassed entirely as claimed. -/
theorem resolve_math_ball_effect_counterexample :
    (resolve_math_effect g0ex Side.player 4 0).player.active_powerup_text =
      some nameTinyBall ∧
    g0ex.player.active_powerup_text = none ∧
    (resolve_math_effect g0ex Side.player 4 0).player.powerup_end_time = 15 ∧
    g0ex.player.powerup_end_time = 0 ∧
    (resolve_math_effect g0ex Side.player 4 0).ball.is_tiny = true := by
  refine ⟨?_, rfl, ?_, rfl, ?_⟩ <;>
    norm_num [g0ex, resolve_math_effect, roster, apply_effect, GameEnts.getPad,
      GameEnts.setPad, Paddle.setPowerupDisplay, Paddle.initial, Ball.set_tiny,
      effTiny, POWERUP_DURATION]

/-- Time check never touches the scores. -/
theorem utcw_scores (t : ℚ) (s : Engine2) :
    (update_time_and_check_win t s).playerScore = s.playerScore ∧
    (update_time_and_check_win t s).aiScore = s.aiScore := by
  simp only [update_time_and_check_win]
  split_ifs <;> exact ⟨rfl, rfl⟩

/-- With equal scores the time check never leaves the current state (the
game-over branch requires unequal scores; the tie branch only flags
sudden_death). -/
theorem utcw_state_equal (t : ℚ) (s : Engine2)
    (heq : s.playerScore = s.aiScore) :
    (update_time_and_check_win t s).state = s.state := by
  simp only [update_time_and_check_win]
  split_ifs with h1 h2 h3
  · exact absurd heq h2
  · exact absurd heq h2
  · rfl
  · rfl

/-- C2 (recording the defect): under the faithful per-tick step relation,
in which the paddle-control TypeError of GameEngine.update propagates,
(1) every playing tick that survives the time check and the pause check
raises instead of reaching _check_score, and (2) every reachable engine
state still has both scores at 0 and is never game_over — so the claimed
transitions (scores reaching WIN_SCORE, game over at time expiry with
unequal scores, a score resolving sudden death) never fire: the process
dies on the first tick that would have processed a score. -/
theorem engine_scoring_unreachable :
    (∀ (t pause ball_x angle ph : ℚ) (s : Engine2),
      s.state = GState.playing →
      (update_time_and_check_win t s).state = GState.playing →
      pause < 1 →
      engine_tick_real t pause ball_x angle ph s = none) ∧
    (∀ s : Engine2, EngineReachReal s →
      s.playerScore = 0 ∧ s.aiScore = 0 ∧ s.state ≠ GState.game_over) := by
  constructor
  · intro t pause bx angle ph s hplay hs1 hpause
    simp only [engine_tick_real]
    rw [if_neg (fun hx => hx hplay), if_neg (fun hx => hx hs1),
      if_neg (not_le.mpr hpause)]
    rfl
  · intro s hs
    induction hs with
    | init => exact ⟨rfl, rfl, by decide⟩
    | start s t0 h ih => exact ⟨rfl, rfl, by simp [start_game]⟩
    | tick s s2 t pause bx angle ph h hstep ih =>
        by_cases hplay : s.state = GState.playing
        · obtain ⟨hp0, ha0, hng⟩ := ih
          have heq : s.playerScore = s.aiScore := by rw [hp0, ha0]
          have hs1 : (update_time_and_check_win t s).state = GState.playing := by
            rw [utcw_state_equal t s heq, hplay]
          simp only [engine_tick_real] at hstep
          rw [if_neg (fun hx => hx hplay), if_neg (fun hx => hx hs1)] at hstep
          by_cases hp : pause ≥ 1
          · rw [if_pos hp] at hstep
            injection hstep with hstep2
            rw [← hstep2]
            exact ⟨(utcw_scores t s).1.trans hp0, (utcw_scores t s).2.trans ha0,
              by simp⟩
          · rw [if_neg hp] at hstep
            exact absurd hstep (by simp [update_paddle_control, pyAdd])
        · simp only [engine_tick_real] at hstep
          rw [if_pos hplay] at hstep
          injection hstep with hstep2
          rw [← hstep2]
          exact ih

/-- C2 witness: the first playing tick of a fresh session (time 1, pause
hold 0) raises, and the started session itself is reachable with both
scores 0 outside the game_over state. -/
theorem engine_scoring_unreachable_witness :
    engine_tick_real 1 0 600 180 140 (start_game 0 engine_init) = none ∧
    ((start_game 0 engine_init).playerScore = 0 ∧
     (start_game 0 engine_init).aiScore = 0 ∧
     (start_game 0 engine_init).state ≠ GState.game_over) := by
  refine ⟨engine_scoring_unreachable.1 1 0 600 180 140 _ rfl ?_ (by norm_num),
          engine_scoring_unreachable.2 _
            (EngineReachReal.start _ _ EngineReachReal.init)⟩
  norm_num [update_time_and_check_win, start_game, engine_init, TIME_LIMIT]

end HandPong
